import Mathlib

/-! The state-diff tracker of tailscale-monitor (`main.go`).

A shallow embedding of `src/main.go`.

* The two package-level variables `statusCache` and `isFirstRun` become the
  record `Globals`, passed explicitly.
* A Go `map[string]bool` is a function `String → Option Bool`: `none` is an
  absent key, and two maps are equal exactly when they hold the same keys
  with the same values.
* Everything the program does to the outside world is recorded, in order, in
  a list of `Action`s; a call `sendNotification(name, online)` is the action
  `Action.sendNotification name online`.
* What the network answers is an input: for each HTTP call either a transport
  error or a response, and for a response the status code together with what
  `json.NewDecoder(resp.Body).Decode(&v)` leaves in `v` and the error it
  returns.
* Whether `http.NewRequest` accepts the device-list URL is an input as well
  (`urlParses`). The source drops the error of `http.NewRequest` and calls a
  method on the request, which panics when the request is nil; a panic ends
  the process, so `mainLoop` stops there.
-/

namespace TailscaleMonitor

/-! ## Data model -/

/-- Go `type Device struct`: one record of the API response. -/
structure Device where
  ID : String
  Hostname : String
  Connected : Bool
  deriving DecidableEq, Repr

/-- Go `type DevicesResponse struct`. -/
structure DevicesResponse where
  Devices : List Device
  deriving DecidableEq, Repr

/-- The anonymous struct `res` of `getAccessToken`. -/
structure TokenResponse where
  AccessToken : String
  deriving DecidableEq, Repr

/-- A Go `map[string]bool`. -/
abbrev StatusCache := String → Option Bool

/-- Go `make(map[string]bool)`: the map without keys. -/
def StatusCache.empty : StatusCache := fun _ => none

/-- Go `m[k] = v`: insert or overwrite. -/
def StatusCache.set (m : StatusCache) (k : String) (v : Bool) : StatusCache :=
  fun k' => if k' = k then some v else m k'

/-- The package-level variables `statusCache` and `isFirstRun`. -/
structure Globals where
  statusCache : StatusCache
  isFirstRun : Bool

/-- The values the package-level variables are initialised with. -/
def Globals.init : Globals :=
  { statusCache := StatusCache.empty, isFirstRun := true }

/-! ## The outside world -/

/-- An observable step of the program. -/
inductive Action where
  /-- A call `http.PostForm(url, form)`. -/
  | postForm (url : String) (form : List (String × String))
  /-- A call `client.Do(req)` of a request with basic authentication. -/
  | clientDo (method url username password : String)
  /-- A call `fmt.Printf` with the text printed. -/
  | printf (text : String)
  /-- A call `sendNotification(name, online)`. -/
  | sendNotification (name : String) (online : Bool)
  deriving DecidableEq, Repr

/-- An HTTP response as the program looks at it. `decoded` is the content of
the target variable after `json.NewDecoder(resp.Body).Decode(&target)`, the
target starting from its zero value; `decodeErr` is the error `Decode`
returned (`none` for `nil`). `encoding/json` reports a value of the wrong
type as an error after having filled in the rest of the target, so `decoded`
need not be the zero value when `decodeErr` is an error. -/
structure Response (α : Type) where
  StatusCode : Nat
  decoded : α
  decodeErr : Option String

/-- The result pair `(resp, err)` of an HTTP call: `.error e` for `err != nil`. -/
abbrev HttpResult (α : Type) := Except String (Response α)

/-- What the network answers during one call of `checkDevices`: to the token
exchange, and to the device-list request when it is made. -/
structure Cycle where
  token : HttpResult TokenResponse
  devices : HttpResult DevicesResponse

/-- The environment variables `checkDevices` reads. -/
structure Env where
  TS_CLIENT_ID : String
  TS_CLIENT_SECRET : String
  TS_TAILNET : String

/-! ## The program -/

/-- The state of the `for _, dev := range data.Devices` loop: the map and the
calls of `sendNotification` made so far. -/
structure LoopState where
  statusCache : StatusCache
  sent : List Action

/-- One iteration of the loop of `checkDevices` (lines 74-85). -/
def loopBody (isFirstRun : Bool) (st : LoopState) (dev : Device) : LoopState :=
  let lastStatus := (st.statusCache dev.ID).getD false
  let «exists» := (st.statusCache dev.ID).isSome
  let sent :=
    if «exists» && lastStatus != dev.Connected then
      st.sent ++ [Action.sendNotification dev.Hostname dev.Connected]
    else if !«exists» && !isFirstRun then
      st.sent ++ [Action.sendNotification dev.Hostname dev.Connected]
    else
      st.sent
  { statusCache := st.statusCache.set dev.ID dev.Connected, sent := sent }

/-- The loop `for _, dev := range data.Devices` of `checkDevices`
(lines 73-86), started with no call made yet. -/
def diffLoop (isFirstRun : Bool) (cache : StatusCache) (devices : List Device) : LoopState :=
  devices.foldl (loopBody isFirstRun) { statusCache := cache, sent := [] }

/-- Go `getAccessToken(id, secret)`: the result pair (`.error e` for
`("", err)`, `.ok t` for `(t, nil)`) and the actions performed. The status
code is not read and the error of `Decode` is dropped. -/
def getAccessToken (id secret : String) (post : HttpResult TokenResponse) :
    Except String String × List Action :=
  let data := [("client_id", id), ("client_secret", secret),
    ("grant_type", "client_credentials")]
  let act := [Action.postForm "https://api.tailscale.com/api/v2/oauth/token" data]
  match post with
  | .error err => (.error err, act)
  | .ok resp => (.ok resp.decoded.AccessToken, act)

/-- The local `apiURL` of `checkDevices`. -/
def apiURL (tailnet : String) : String :=
  "https://api.tailscale.com/api/v2/tailnet/" ++ tailnet ++ "/devices"

/-- How a piece of the program ends: the package-level variables, the actions
performed, and whether it ended in a panic, which ends the process. -/
structure Outcome where
  globals : Globals
  actions : List Action
  panicked : Bool

/-- Go `checkDevices()`. `urlParses url` says whether
`http.NewRequest("GET", url, nil)` returns a request: when the URL does not
parse it returns a nil request and an error, the source drops the error, and
`req.SetBasicAuth` panics on the nil request before `client.Do` is reached.
The body of `sendNotification` (the request to `BARK_URL`) is not unfolded: a
call is recorded with its two arguments. -/
def checkDevices (urlParses : String → Bool) (env : Env) (w : Cycle) (g : Globals) :
    Outcome :=
  let clientID := env.TS_CLIENT_ID
  let clientSecret := env.TS_CLIENT_SECRET
  let tailnet := env.TS_TAILNET
  match getAccessToken clientID clientSecret w.token with
  | (.error err, acts) =>
    { globals := g,
      actions := acts ++ [Action.printf ("❌ 获取 Token 失败: " ++ err ++ "\n")],
      panicked := false }
  | (.ok token, acts) =>
    let url := apiURL tailnet
    if !urlParses url then
      { globals := g, actions := acts, panicked := true }
    else
      let acts := acts ++ [Action.clientDo "GET" url token ""]
      match w.devices with
      | .error err =>
        { globals := g,
          actions := acts ++ [Action.printf ("❌ 请求 API 失败: " ++ err ++ "\n")],
          panicked := false }
      | .ok resp =>
        let data := resp.decoded
        let st := diffLoop g.isFirstRun g.statusCache data.Devices
        { globals := { g with statusCache := st.statusCache },
          actions := acts ++ st.sent,
          panicked := false }

/-- The `for` loop of `main`, run for as many iterations as there are
network answers: `checkDevices()`, then `isFirstRun = false`. A panic in
`checkDevices` ends the run there. -/
def mainLoop (urlParses : String → Bool) (env : Env) : List Cycle → Globals → Outcome
  | [], g => { globals := g, actions := [], panicked := false }
  | w :: ws, g =>
    let r := checkDevices urlParses env w g
    if r.panicked then r
    else
      let g' := { r.globals with isFirstRun := false }
      let rest := mainLoop urlParses env ws g'
      { globals := rest.globals, actions := r.actions ++ rest.actions,
        panicked := rest.panicked }

/-! ## Vocabulary of the statements -/

/-- The calls of `sendNotification` among a list of actions, in order. -/
def notifications (acts : List Action) : List (String × Bool) :=
  acts.filterMap fun a =>
    match a with
    | .sendNotification name online => some (name, online)
    | _ => none

/-- Whether an action is the device-list request. -/
def Action.isDeviceListRequest : Action → Bool
  | .clientDo _ _ _ _ => true
  | _ => false

/-- The call of `sendNotification` that reports device `d`. -/
def eventOf (d : Device) : Action := Action.sendNotification d.Hostname d.Connected

/-- The ids of a snapshot, in order. -/
def ids (devices : List Device) : List String := devices.map Device.ID

/-- Whether `checkDevices` returns before its loop: `getAccessToken` or
`client.Do` returned an error. -/
def Cycle.aborts (w : Cycle) : Bool :=
  match w.token, w.devices with
  | .error _, _ => true
  | .ok _, .error _ => true
  | .ok _, .ok _ => false

/-- The map after the loop has processed, starting from the empty map, the
snapshots of `polls` in turn, each under its own value of `isFirstRun`. -/
def trackedAfter (polls : List (Bool × List Device)) : StatusCache :=
  polls.foldl (fun c p => (diffLoop p.1 c p.2).statusCache) StatusCache.empty

/-- A failed token exchange in the words of the specification: a network
error, a response whose status is not 2xx, or a body that does not decode. -/
def tokenExchangeFails (r : HttpResult TokenResponse) : Bool :=
  match r with
  | .error _ => true
  | .ok resp =>
    !(decide (200 ≤ resp.StatusCode) && decide (resp.StatusCode < 300)) ||
      resp.decodeErr.isSome

/-- A failed device-list fetch in the words of the specification: the request
fails, or the body does not decode to a device list. -/
def deviceListFails (r : HttpResult DevicesResponse) : Bool :=
  match r with
  | .error _ => true
  | .ok resp => resp.decodeErr.isSome

/-- The calls one iteration makes when started with no call made yet. -/
def emitted (isFirstRun : Bool) (cache : StatusCache) (dev : Device) : List Action :=
  (loopBody isFirstRun { statusCache := cache, sent := [] } dev).sent

/-! ## Lemmas on the loop -/

theorem loopBody_statusCache (fr : Bool) (st : LoopState) (d : Device) :
    (loopBody fr st d).statusCache = st.statusCache.set d.ID d.Connected := rfl

theorem loopBody_sent (fr : Bool) (st : LoopState) (d : Device) :
    (loopBody fr st d).sent = st.sent ++ emitted fr st.statusCache d := by
  simp only [loopBody, emitted]
  split_ifs <;> simp

theorem foldl_loopBody (fr : Bool) (devs : List Device) (st : LoopState) :
    devs.foldl (loopBody fr) st =
      { statusCache := (diffLoop fr st.statusCache devs).statusCache,
        sent := st.sent ++ (diffLoop fr st.statusCache devs).sent } := by
  induction devs generalizing st with
  | nil => simp [diffLoop]
  | cons d ds ih =>
    simp only [diffLoop, List.foldl_cons]
    rw [ih (loopBody fr st d), ih (loopBody fr _ d)]
    simp [loopBody_statusCache, loopBody_sent, List.append_assoc]

theorem diffLoop_nil (fr : Bool) (c : StatusCache) :
    diffLoop fr c [] = { statusCache := c, sent := [] } := rfl

theorem diffLoop_cons (fr : Bool) (c : StatusCache) (d : Device) (ds : List Device) :
    diffLoop fr c (d :: ds) =
      { statusCache := (diffLoop fr (c.set d.ID d.Connected) ds).statusCache,
        sent := emitted fr c d ++ (diffLoop fr (c.set d.ID d.Connected) ds).sent } := by
  show List.foldl (loopBody fr) _ (d :: ds) = _
  rw [List.foldl_cons, foldl_loopBody]
  simp [loopBody_statusCache, loopBody_sent]

theorem diffLoop_append (fr : Bool) (c : StatusCache) (xs ys : List Device) :
    diffLoop fr c (xs ++ ys) =
      { statusCache := (diffLoop fr (diffLoop fr c xs).statusCache ys).statusCache,
        sent := (diffLoop fr c xs).sent ++
          (diffLoop fr (diffLoop fr c xs).statusCache ys).sent } := by
  induction xs generalizing c with
  | nil => simp [diffLoop_nil]
  | cons d ds ih => simp [diffLoop_cons, ih, List.append_assoc]

theorem emitted_some (fr : Bool) (c : StatusCache) (d : Device) (v : Bool)
    (h : c d.ID = some v) :
    emitted fr c d = if v ≠ d.Connected then [eventOf d] else [] := by
  simp only [emitted, loopBody, h, eventOf]
  cases v <;> cases hc : d.Connected <;> simp

theorem emitted_none (fr : Bool) (c : StatusCache) (d : Device)
    (h : c d.ID = none) :
    emitted fr c d = if fr then [] else [eventOf d] := by
  simp only [emitted, loopBody, h, eventOf]
  cases fr <;> simp

theorem set_same (c : StatusCache) (k : String) (v : Bool) : c.set k v k = some v := by
  simp [StatusCache.set]

theorem set_other (c : StatusCache) (k k' : String) (v : Bool) (h : k' ≠ k) :
    c.set k v k' = c k' := by
  simp [StatusCache.set, h]

/-- A key that is not an id of the snapshot keeps its entry, present or absent. -/
theorem diffLoop_frame (fr : Bool) (devs : List Device) (c : StatusCache) (k : String)
    (h : k ∉ ids devs) : (diffLoop fr c devs).statusCache k = c k := by
  induction devs generalizing c with
  | nil => rfl
  | cons d ds ih =>
    simp only [ids, List.map_cons, List.mem_cons, not_or] at h
    rw [diffLoop_cons]
    show (diffLoop fr _ ds).statusCache k = c k
    rw [ih _ h.2, set_other _ _ _ _ h.1]

/-- With unique ids, every device of the snapshot ends with its own connectivity. -/
theorem diffLoop_mem (fr : Bool) (devs : List Device) (c : StatusCache) (d : Device)
    (hn : (ids devs).Nodup) (hd : d ∈ devs) :
    (diffLoop fr c devs).statusCache d.ID = some d.Connected := by
  induction devs generalizing c with
  | nil => simp at hd
  | cons e es ih =>
    simp only [ids, List.map_cons, List.nodup_cons] at hn
    rw [diffLoop_cons]
    show (diffLoop fr _ es).statusCache d.ID = _
    rcases List.mem_cons.1 hd with rfl | hd
    · rw [diffLoop_frame fr es _ _ hn.1, set_same]
    · exact ih _ hn.2 hd

/-- The loop never removes a key. -/
theorem diffLoop_isSome (fr : Bool) (devs : List Device) (c : StatusCache) (k : String)
    (h : (c k).isSome) : ((diffLoop fr c devs).statusCache k).isSome := by
  induction devs generalizing c with
  | nil => exact h
  | cons d ds ih =>
    rw [diffLoop_cons]
    apply ih
    by_cases hk : k = d.ID
    · subst hk; simp [set_same]
    · rw [set_other _ _ _ _ hk]; exact h

/-- One iteration looks only at the entry of its own device. -/
theorem emitted_congr (fr : Bool) (c c' : StatusCache) (d : Device)
    (h : c d.ID = c' d.ID) : emitted fr c d = emitted fr c' d := by
  simp only [emitted, loopBody, h]

/-- One iteration makes no call or the one call that reports its device. -/
theorem emitted_cases (fr : Bool) (c : StatusCache) (d : Device) :
    emitted fr c d = [] ∨ emitted fr c d = [eventOf d] := by
  simp only [emitted, loopBody, eventOf]
  split_ifs <;> simp

theorem diffLoop_singleton (fr : Bool) (c : StatusCache) (d : Device) :
    diffLoop fr c [d] =
      { statusCache := c.set d.ID d.Connected, sent := emitted fr c d } := by
  simp [diffLoop_cons, diffLoop_nil]

/-- With unique ids every iteration sees the entry its device had before the
loop, so the calls are those each device would cause on its own. -/
theorem diffLoop_sent_nodup (fr : Bool) (devs : List Device) (c : StatusCache)
    (hn : (ids devs).Nodup) :
    (diffLoop fr c devs).sent = devs.flatMap (emitted fr c) := by
  induction devs generalizing c with
  | nil => rfl
  | cons d ds ih =>
    simp only [ids, List.map_cons, List.nodup_cons] at hn
    rw [diffLoop_cons, List.flatMap_cons]
    show emitted fr c d ++ (diffLoop fr _ ds).sent = _
    rw [ih _ hn.2]
    congr 1
    apply List.flatMap_congr
    intro e he
    apply emitted_congr
    apply set_other
    intro heq
    exact hn.1 (heq ▸ List.mem_map_of_mem Device.ID he)

/-- The three parts of a run of the loop over `before ++ d :: after`. -/
theorem diffLoop_split (fr : Bool) (c : StatusCache) (before after : List Device)
    (d : Device) :
    (diffLoop fr c (before ++ d :: after)).sent =
      (diffLoop fr c before).sent ++
        (diffLoop fr (diffLoop fr c before).statusCache [d]).sent ++
        (diffLoop fr
          (diffLoop fr (diffLoop fr c before).statusCache [d]).statusCache after).sent := by
  rw [diffLoop_append, diffLoop_cons, diffLoop_singleton]
  simp [List.append_assoc]

theorem notifications_append (a b : List Action) :
    notifications (a ++ b) = notifications a ++ notifications b := by
  simp [notifications, List.filterMap_append]

theorem notifications_map_eventOf (devs : List Device) :
    notifications (devs.map eventOf) = devs.map fun d => (d.Hostname, d.Connected) := by
  induction devs with
  | nil => rfl
  | cons d ds ih =>
    simp only [notifications, eventOf, List.map_cons, List.filterMap_cons] at ih ⊢
    rw [ih]

/-! ## The claims -/

/-- C1 (transition detection, no-op on unchanged state). The loop over
`before ++ d :: after` is the loop over `before`, then the iteration at `d`,
then the loop over `after`. When the ids are unique and `d.ID` is tracked with
value `v` before the loop, the iteration at `d` calls `sendNotification` if and
only if `v` differs from `d.Connected`, then exactly once and with
`d.Hostname` and `d.Connected`, and after the loop `d.ID` is mapped to
`d.Connected`. -/
theorem transition_detection (cache : StatusCache) (isFirstRun : Bool)
    (before after : List Device) (d : Device) (v : Bool)
    (huniq : (ids (before ++ d :: after)).Nodup)
    (htracked : cache d.ID = some v) :
    (diffLoop isFirstRun cache (before ++ d :: after)).sent =
        (diffLoop isFirstRun cache before).sent ++
          (diffLoop isFirstRun (diffLoop isFirstRun cache before).statusCache [d]).sent ++
          (diffLoop isFirstRun
            (diffLoop isFirstRun (diffLoop isFirstRun cache before).statusCache
              [d]).statusCache after).sent
      ∧ (diffLoop isFirstRun (diffLoop isFirstRun cache before).statusCache [d]).sent =
        (if v ≠ d.Connected then [Action.sendNotification d.Hostname d.Connected] else [])
      ∧ (diffLoop isFirstRun cache (before ++ d :: after)).statusCache d.ID =
        some d.Connected := by
  have hnot : d.ID ∉ ids before := by
    simp only [ids, List.map_append, List.map_cons] at huniq
    have := (List.nodup_append.1 huniq).2.2
    intro hmem
    exact this hmem (List.mem_cons_self _ _)
  refine ⟨diffLoop_split _ _ _ _ _, ?_, diffLoop_mem _ _ _ _ huniq (by simp)⟩
  rw [diffLoop_singleton]
  show emitted _ _ _ = _
  rw [emitted_some isFirstRun _ d v ((diffLoop_frame _ _ _ _ hnot).trans htracked)]
  rfl

/-- C3 (new device after startup). With `isFirstRun = false` and unique ids, a
device `d` of the snapshot whose id is not tracked before the loop causes, in
its iteration, exactly one call of `sendNotification`, with `d.Hostname` and
`d.Connected`, and after the loop `d.ID` is mapped to `d.Connected`. -/
theorem new_device_after_startup (cache : StatusCache)
    (before after : List Device) (d : Device)
    (huniq : (ids (before ++ d :: after)).Nodup)
    (hnew : cache d.ID = none) :
    (diffLoop false cache (before ++ d :: after)).sent =
        (diffLoop false cache before).sent ++
          (diffLoop false (diffLoop false cache before).statusCache [d]).sent ++
          (diffLoop false
            (diffLoop false (diffLoop false cache before).statusCache
              [d]).statusCache after).sent
      ∧ (diffLoop false (diffLoop false cache before).statusCache [d]).sent =
        [Action.sendNotification d.Hostname d.Connected]
      ∧ (diffLoop false cache (before ++ d :: after)).statusCache d.ID =
        some d.Connected := by
  have hnot : d.ID ∉ ids before := by
    simp only [ids, List.map_append, List.map_cons] at huniq
    have := (List.nodup_append.1 huniq).2.2
    intro hmem
    exact this hmem (List.mem_cons_self _ _)
  refine ⟨diffLoop_split _ _ _ _ _, ?_, diffLoop_mem _ _ _ _ huniq (by simp)⟩
  rw [diffLoop_singleton]
  show emitted _ _ _ = _
  rw [emitted_none false _ d ((diffLoop_frame _ _ _ _ hnot).trans hnew)]
  rfl

/-- C2 as stated fails: on the very first invocation a snapshot that lists the
id `A` twice, first connected and then not, causes a call of
`sendNotification` at the second record. -/
theorem first_run_duplicate_id_notifies :
    (diffLoop true StatusCache.empty
        [⟨"A", "alpha", true⟩, ⟨"A", "alpha", false⟩]).sent =
      [Action.sendNotification "alpha" false]
    ∧ ¬ (diffLoop true StatusCache.empty
        [⟨"A", "alpha", true⟩, ⟨"A", "alpha", false⟩]).sent = [] := by
  constructor
  · rfl
  · intro h
    cases h

/-- C2 amended (first-run suppression). On the very first invocation (empty
map, `isFirstRun = true`) a snapshot with unique ids causes no call of
`sendNotification`, and afterwards the keys of the map are exactly the ids of
the snapshot, each device's id mapped to that device's connectivity. -/
theorem first_run_suppression (devices : List Device)
    (huniq : (ids devices).Nodup) :
    (diffLoop true StatusCache.empty devices).sent = []
      ∧ (∀ k, (diffLoop true StatusCache.empty devices).statusCache k ≠ none ↔
          k ∈ ids devices)
      ∧ (∀ d ∈ devices,
          (diffLoop true StatusCache.empty devices).statusCache d.ID =
            some d.Connected) := by
  refine ⟨?_, ?_, fun d hd => diffLoop_mem _ _ _ _ huniq hd⟩
  · rw [diffLoop_sent_nodup _ _ _ huniq]
    simp only [List.flatMap_eq_nil_iff]
    intro d _
    rw [emitted_none true _ d rfl]
    rfl
  · intro k
    constructor
    · intro hk
      by_contra hmem
      exact hk (diffLoop_frame _ _ _ _ hmem)
    · intro hmem
      obtain ⟨d, hd, rfl⟩ := List.mem_map.1 hmem
      rw [diffLoop_mem _ _ _ _ huniq hd]
      simp

/-- C4 (idempotence). After the loop has processed a snapshot with unique ids,
processing the same snapshot again with `isFirstRun = false` causes no call
of `sendNotification` and leaves the map as the first run produced it. -/
theorem idempotence (cache : StatusCache) (isFirstRun : Bool) (devices : List Device)
    (huniq : (ids devices).Nodup) :
    (diffLoop false (diffLoop isFirstRun cache devices).statusCache devices).sent = []
      ∧ (diffLoop false (diffLoop isFirstRun cache devices).statusCache
          devices).statusCache =
        (diffLoop isFirstRun cache devices).statusCache := by
  constructor
  · rw [diffLoop_sent_nodup _ _ _ huniq]
    simp only [List.flatMap_eq_nil_iff]
    intro d hd
    rw [emitted_some false _ d d.Connected (diffLoop_mem _ _ _ _ huniq hd)]
    simp
  · funext k
    by_cases hmem : k ∈ ids devices
    · obtain ⟨d, hd, rfl⟩ := List.mem_map.1 hmem
      rw [diffLoop_mem _ _ _ _ huniq hd, diffLoop_mem _ _ _ _ huniq hd]
    · rw [diffLoop_frame _ _ _ _ hmem]

theorem checkDevices_isSome (urlParses : String → Bool) (env : Env) (w : Cycle)
    (g : Globals) (k : String) (h : (g.statusCache k).isSome) :
    ((checkDevices urlParses env w g).1.statusCache k).isSome := by
  unfold checkDevices getAccessToken
  rcases w with ⟨tok, dev⟩
  cases tok with
  | error e => exact h
  | ok r =>
    by_cases hp : urlParses (apiURL env.TS_TAILNET) = true
    · cases dev with
      | error e => simpa [hp] using h
      | ok resp => simpa [hp] using diffLoop_isSome _ _ _ _ h
    · simpa [hp] using h

theorem mainLoop_isSome (urlParses : String → Bool) (env : Env) (ws : List Cycle)
    (g : Globals) (k : String) (h : (g.statusCache k).isSome) :
    ((mainLoop urlParses env ws g).1.statusCache k).isSome := by
  induction ws generalizing g with
  | nil => exact h
  | cons w ws ih =>
    have hw := checkDevices_isSome urlParses env w g k h
    simp only [mainLoop]
    split_ifs
    · exact hw
    · exact ih _ hw

/-- C5 (stale retention). A device id that is tracked before the loop and does
not occur in the snapshot is tracked afterwards with the same value; and no
key is ever removed from the map, neither by the loop nor by any number of
iterations of `main`, whatever the network answers. -/
theorem stale_retention (cache : StatusCache) (isFirstRun : Bool)
    (devices : List Device) (k : String) (v : Bool)
    (htracked : cache k = some v) (habsent : k ∉ ids devices) :
    (diffLoop isFirstRun cache devices).statusCache k = some v
      ∧ (∀ key, (cache key).isSome →
          ((diffLoop isFirstRun cache devices).statusCache key).isSome)
      ∧ (∀ (urlParses : String → Bool) (env : Env) (ws : List Cycle) (g : Globals)
          (key : String),
          (g.statusCache key).isSome →
            ((mainLoop urlParses env ws g).1.statusCache key).isSome) :=
  ⟨(diffLoop_frame _ _ _ _ habsent).trans htracked,
    fun key h => diffLoop_isSome _ _ _ key h,
    fun urlParses env ws g key h => mainLoop_isSome urlParses env ws g key h⟩

/-- C7 (order preservation). The calls of `sendNotification` made by the loop
are, in order, the reports `(d.Hostname, d.Connected)` of a sublist of the
snapshot: they come in the order of the snapshot, at most one per record. -/
theorem order_preservation (cache : StatusCache) (isFirstRun : Bool)
    (devices : List Device) :
    ∃ reported : List Device, reported.Sublist devices ∧
      (diffLoop isFirstRun cache devices).sent =
        reported.map (fun d => Action.sendNotification d.Hostname d.Connected) := by
  induction devices generalizing cache with
  | nil => exact ⟨[], List.Sublist.slnil, rfl⟩
  | cons d ds ih =>
    obtain ⟨sub, hsub, hsent⟩ := ih (cache.set d.ID d.Connected)
    rw [diffLoop_cons]
    rcases emitted_cases isFirstRun cache d with h | h
    · exact ⟨sub, hsub.cons d, by simp [h, hsent]⟩
    · exact ⟨d :: sub, hsub.cons₂ d, by simp [h, hsent, eventOf]⟩

theorem trackedAfter_snoc (polls : List (Bool × List Device)) (p : Bool × List Device) :
    trackedAfter (polls ++ [p]) = (diffLoop p.1 (trackedAfter polls) p.2).statusCache := by
  simp [trackedAfter, List.foldl_append]

/-- C6 (invariant of the map). After the loop has processed, from the empty
map, any finite sequence of snapshots with unique ids, every id in the map
occurs in a processed snapshot, and its value is the connectivity of the
device with that id in the last snapshot in which the id occurs. -/
theorem tracked_state_invariant (polls : List (Bool × List Device))
    (huniq : ∀ p ∈ polls, (ids p.2).Nodup) (k : String) (v : Bool)
    (hk : trackedAfter polls k = some v) :
    ∃ (earlier : List (Bool × List Device)) (p : Bool × List Device)
        (later : List (Bool × List Device)) (d : Device),
      polls = earlier ++ p :: later ∧ d ∈ p.2 ∧ d.ID = k ∧ d.Connected = v ∧
        ∀ q ∈ later, k ∉ ids q.2 := by
  induction polls using List.reverseRecOn generalizing v with
  | nil => simp [trackedAfter, StatusCache.empty] at hk
  | append_singleton ps p ih =>
    rw [trackedAfter_snoc] at hk
    have hp : (ids p.2).Nodup := huniq p (by simp)
    by_cases hmem : k ∈ ids p.2
    · obtain ⟨d, hd, rfl⟩ := List.mem_map.1 hmem
      rw [diffLoop_mem _ _ _ _ hp hd] at hk
      exact ⟨ps, p, [], d, rfl, hd, rfl, Option.some.inj hk, by simp⟩
    · rw [diffLoop_frame _ _ _ _ hmem] at hk
      obtain ⟨earlier, q, later, d, hsplit, hd, hid, hv, hlater⟩ :=
        ih (fun r hr => huniq r (by simp [hr])) v hk
      refine ⟨earlier, q, later ++ [p], d, by simp [hsplit], hd, hid, hv, ?_⟩
      intro r hr
      rcases List.mem_append.1 hr with hr | hr
      · exact hlater r hr
      · rw [List.mem_singleton.1 hr]; exact hmem

/-- C8 as stated fails, for a non-2xx answer and for a malformed body alike: a
token exchange answered with status 401 and no token, and one answered with
status 200 and a body cut short, are failed exchanges, yet in both
`getAccessToken` returns the empty token with a nil error and `checkDevices`
goes on to issue the device-list request. -/
theorem credential_error_undetected :
    tokenExchangeFails (Except.ok ⟨401, ⟨""⟩, none⟩) = true
      ∧ (getAccessToken "id" "secret" (Except.ok ⟨401, ⟨""⟩, none⟩)).1 = Except.ok ""
      ∧ (checkDevices (fun _ => true) ⟨"id", "secret", "example.com"⟩
            ⟨Except.ok ⟨401, ⟨""⟩, none⟩, Except.ok ⟨401, ⟨[]⟩, none⟩⟩
            Globals.init).2.any Action.isDeviceListRequest = true
      ∧ tokenExchangeFails (Except.ok ⟨200, ⟨""⟩, some "unexpected EOF"⟩) = true
      ∧ (getAccessToken "id" "secret"
            (Except.ok ⟨200, ⟨""⟩, some "unexpected EOF"⟩)).1 = Except.ok ""
      ∧ (checkDevices (fun _ => true) ⟨"id", "secret", "example.com"⟩
            ⟨Except.ok ⟨200, ⟨""⟩, some "unexpected EOF"⟩, Except.ok ⟨401, ⟨[]⟩, none⟩⟩
            Globals.init).2.any Action.isDeviceListRequest = true := by
  refine ⟨rfl, rfl, rfl, rfl, rfl, rfl⟩

/-- C8 amended (credential error). When `http.PostForm` returns an error,
`getAccessToken` returns that error and `checkDevices` ends the cycle: it
issues no device-list request, calls `sendNotification` never, and leaves the
map as it was. When `http.PostForm` returns a response, whatever its status
code and whatever error `Decode` returns on its body, `getAccessToken`
returns the token `Decode` left with a nil error, and `checkDevices` issues
the device-list request with that token as user name exactly when the
request URL parses. -/
theorem credential_error_aborts (urlParses : String → Bool) (env : Env) (w : Cycle)
    (g : Globals) :
    (∀ e, w.token = Except.error e →
        (getAccessToken env.TS_CLIENT_ID env.TS_CLIENT_SECRET w.token).1 = Except.error e
          ∧ (checkDevices urlParses env w g).2.any Action.isDeviceListRequest = false
          ∧ notifications (checkDevices urlParses env w g).2 = []
          ∧ (checkDevices urlParses env w g).1.statusCache = g.statusCache)
      ∧ (∀ resp, w.token = Except.ok resp →
        (getAccessToken env.TS_CLIENT_ID env.TS_CLIENT_SECRET w.token).1 =
            Except.ok resp.decoded.AccessToken
          ∧ (checkDevices urlParses env w g).2.any Action.isDeviceListRequest =
            urlParses (apiURL env.TS_TAILNET)
          ∧ (urlParses (apiURL env.TS_TAILNET) = true →
            Action.clientDo "GET" (apiURL env.TS_TAILNET) resp.decoded.AccessToken "" ∈
              (checkDevices urlParses env w g).2)) := by
  rcases w with ⟨tok, dev⟩
  constructor
  · intro e hfail
    simp only at hfail
    subst hfail
    refine ⟨rfl, rfl, rfl, rfl⟩
  · intro resp hok
    simp only at hok
    subst hok
    refine ⟨rfl, ?_, ?_⟩
    · by_cases hp : urlParses (apiURL env.TS_TAILNET) = true
      · cases dev <;>
          simp [checkDevices, getAccessToken, hp, Action.isDeviceListRequest]
      · simp [checkDevices, getAccessToken, hp, Action.isDeviceListRequest]
    · intro hp
      cases dev <;> simp [checkDevices, getAccessToken, hp]

/-- C9 as stated fails: a device list whose `connected` field has the wrong
type makes `Decode` return an error after leaving the record in `data` with
`Connected = false`; the error is not looked at, the loop runs, reports the
tracked device `A` as offline and overwrites its entry. -/
theorem fetch_error_changes_state :
    deviceListFails (Except.ok ⟨200, ⟨[⟨"A", "alpha", false⟩]⟩,
        some "json: cannot unmarshal string into Go struct field Device.devices.connected of type bool"⟩) = true
      ∧ notifications (checkDevices (fun _ => true) ⟨"id", "secret", "example.com"⟩
          ⟨Except.ok ⟨200, ⟨"tok"⟩, none⟩,
            Except.ok ⟨200, ⟨[⟨"A", "alpha", false⟩]⟩,
              some "json: cannot unmarshal string into Go struct field Device.devices.connected of type bool"⟩⟩
          ⟨StatusCache.empty.set "A" true, false⟩).2 = [("alpha", false)]
      ∧ (StatusCache.empty.set "A" true) "A" = some true
      ∧ (checkDevices (fun _ => true) ⟨"id", "secret", "example.com"⟩
          ⟨Except.ok ⟨200, ⟨"tok"⟩, none⟩,
            Except.ok ⟨200, ⟨[⟨"A", "alpha", false⟩]⟩,
              some "json: cannot unmarshal string into Go struct field Device.devices.connected of type bool"⟩⟩
          ⟨StatusCache.empty.set "A" true, false⟩).1.statusCache "A" = some false := by
  refine ⟨rfl, rfl, rfl, rfl⟩

/-- C9 amended (fetch error). When `client.Do` returns an error, or when
`Decode` leaves no device record in `data`, `checkDevices` calls
`sendNotification` never and leaves the map as it was. When the token
exchange and `client.Do` return responses and the request URL parses, then
whatever the status code of the device-list response and whatever error
`Decode` returns on its body, `checkDevices` performs the token exchange, the
device-list request and then exactly the calls of the loop on the records
`Decode` left in `data.Devices`, and the map afterwards is the map that loop
produces. -/
theorem fetch_error_keeps_state (urlParses : String → Bool) (env : Env) (w : Cycle)
    (g : Globals) :
    (((∃ e, w.devices = Except.error e) ∨
        (∃ resp, w.devices = Except.ok resp ∧ resp.decoded.Devices = [])) →
        notifications (checkDevices urlParses env w g).2 = []
          ∧ (checkDevices urlParses env w g).1.statusCache = g.statusCache)
      ∧ (∀ (tok : Response TokenResponse) (resp : Response DevicesResponse),
        w.token = Except.ok tok → w.devices = Except.ok resp →
        urlParses (apiURL env.TS_TAILNET) = true →
        (checkDevices urlParses env w g).2 =
            [Action.postForm "https://api.tailscale.com/api/v2/oauth/token"
                [("client_id", env.TS_CLIENT_ID), ("client_secret", env.TS_CLIENT_SECRET),
                  ("grant_type", "client_credentials")],
              Action.clientDo "GET" (apiURL env.TS_TAILNET) tok.decoded.AccessToken ""] ++
              (diffLoop g.isFirstRun g.statusCache resp.decoded.Devices).sent
          ∧ (checkDevices urlParses env w g).1.statusCache =
            (diffLoop g.isFirstRun g.statusCache resp.decoded.Devices).statusCache
          ∧ (checkDevices urlParses env w g).1.isFirstRun = g.isFirstRun
          ∧ (checkDevices urlParses env w g).3 = false) := by
  rcases w with ⟨wt, wd⟩
  constructor
  · intro hfail
    cases wt with
    | error e => exact ⟨rfl, rfl⟩
    | ok r =>
      by_cases hp : urlParses (apiURL env.TS_TAILNET) = true
      · rcases hfail with ⟨e, he⟩ | ⟨resp, hr, hnil⟩
        · simp only at he
          subst he
          simp [checkDevices, getAccessToken, notifications, hp]
        · simp only at hr
          subst hr
          simp [checkDevices, getAccessToken, notifications, hp, hnil, diffLoop_nil]
      · simp [checkDevices, getAccessToken, notifications, hp]
  · intro tok resp htok hdev hp
    simp only at htok hdev
    subst htok hdev
    simp [checkDevices, getAccessToken, hp]

/-- When the token exchange returns a response and the request URL does not
parse, `checkDevices` panics right after the token exchange: no device-list
request, no call of `sendNotification`, the variables as they were. -/
theorem checkDevices_nil_request (urlParses : String → Bool) (env : Env) (w : Cycle)
    (g : Globals) (tok : Response TokenResponse) (htok : w.token = Except.ok tok)
    (hp : urlParses (apiURL env.TS_TAILNET) = false) :
    checkDevices urlParses env w g =
      { globals := g,
        actions := [Action.postForm "https://api.tailscale.com/api/v2/oauth/token"
          [("client_id", env.TS_CLIENT_ID), ("client_secret", env.TS_CLIENT_SECRET),
            ("grant_type", "client_credentials")]],
        panicked := true } := by
  rcases w with ⟨wt, wd⟩
  simp only at htok
  subst htok
  simp [checkDevices, getAccessToken, hp]

/-- A panic of `checkDevices` ends the run: the later ticks do not happen. -/
theorem mainLoop_panicked (urlParses : String → Bool) (env : Env) (w : Cycle)
    (ws : List Cycle) (g : Globals)
    (h : (checkDevices urlParses env w g).panicked = true) :
    mainLoop urlParses env (w :: ws) g = checkDevices urlParses env w g := by
  simp [mainLoop, h]

theorem checkDevices_panicked (urlParses : String → Bool) (env : Env) (w : Cycle)
    (g : Globals) (hp : urlParses (apiURL env.TS_TAILNET) = true) :
    (checkDevices urlParses env w g).panicked = false := by
  rcases w with ⟨tok, dev⟩
  cases tok with
  | error e => rfl
  | ok r => cases dev <;> simp [checkDevices, getAccessToken, hp]

theorem checkDevices_aborts (urlParses : String → Bool) (env : Env) (w : Cycle)
    (g : Globals) (hp : urlParses (apiURL env.TS_TAILNET) = true)
    (h : w.aborts = true) :
    (checkDevices urlParses env w g).globals = g ∧
      notifications (checkDevices urlParses env w g).actions = [] := by
  rcases w with ⟨tok, dev⟩
  cases tok with
  | error e => exact ⟨rfl, rfl⟩
  | ok r =>
    cases dev with
    | error e => simp [checkDevices, getAccessToken, notifications, hp]
    | ok resp => simp [Cycle.aborts] at h

theorem mainLoop_cons (urlParses : String → Bool) (env : Env) (w : Cycle)
    (ws : List Cycle) (g : Globals) (hp : urlParses (apiURL env.TS_TAILNET) = true) :
    mainLoop urlParses env (w :: ws) g =
      { globals := (mainLoop urlParses env ws
          { (checkDevices urlParses env w g).globals with isFirstRun := false }).globals,
        actions := (checkDevices urlParses env w g).actions ++
          (mainLoop urlParses env ws
            { (checkDevices urlParses env w g).globals with isFirstRun := false }).actions,
        panicked := (mainLoop urlParses env ws
          { (checkDevices urlParses env w g).globals with isFirstRun := false }).panicked } := by
  simp [mainLoop, checkDevices_panicked urlParses env w g hp]

theorem mainLoop_append (urlParses : String → Bool) (env : Env) (xs ys : List Cycle)
    (g : Globals) (hp : urlParses (apiURL env.TS_TAILNET) = true) :
    mainLoop urlParses env (xs ++ ys) g =
      { globals := (mainLoop urlParses env ys (mainLoop urlParses env xs g).globals).globals,
        actions := (mainLoop urlParses env xs g).actions ++
          (mainLoop urlParses env ys (mainLoop urlParses env xs g).globals).actions,
        panicked :=
          (mainLoop urlParses env ys (mainLoop urlParses env xs g).globals).panicked } := by
  induction xs generalizing g with
  | nil => simp [mainLoop]
  | cons x xs ih =>
    rw [List.cons_append, mainLoop_cons _ _ _ _ _ hp, mainLoop_cons _ _ _ _ _ hp, ih]
    simp [List.append_assoc]

theorem mainLoop_cons_isFirstRun (urlParses : String → Bool) (env : Env) (w : Cycle)
    (ws : List Cycle) (g : Globals) (hp : urlParses (apiURL env.TS_TAILNET) = true) :
    (mainLoop urlParses env (w :: ws) g).globals.isFirstRun = false := by
  induction ws using List.reverseRecOn with
  | nil =>
    rw [mainLoop_cons _ _ _ _ _ hp]
    simp [mainLoop]
  | append_singleton ws x _ =>
    rw [← List.cons_append, mainLoop_append _ _ _ _ _ hp, mainLoop_cons _ _ x _ _ hp]
    simp [mainLoop]

theorem mainLoop_aborts (urlParses : String → Bool) (env : Env) (ws : List Cycle)
    (g : Globals) (hp : urlParses (apiURL env.TS_TAILNET) = true)
    (h : ∀ w ∈ ws, w.aborts = true) :
    (mainLoop urlParses env ws g).globals.statusCache = g.statusCache ∧
      notifications (mainLoop urlParses env ws g).actions = [] := by
  induction ws generalizing g with
  | nil => simp [mainLoop, notifications]
  | cons w ws ih =>
    have hw := checkDevices_aborts urlParses env w g hp (h w (by simp))
    have hrest := ih { (checkDevices urlParses env w g).globals with isFirstRun := false }
      (fun x hx => h x (by simp [hx]))
    rw [mainLoop_cons _ _ _ _ _ hp]
    simp only [notifications_append, hw.2, List.nil_append]
    refine ⟨?_, hrest.2⟩
    rw [hrest.1, hw.1]

/-- With `isFirstRun = false` and an empty map, a snapshot with unique ids
causes one call for every device. -/
theorem diffLoop_flood (devs : List Device) (hn : (ids devs).Nodup) :
    (diffLoop false StatusCache.empty devs).sent = devs.map eventOf := by
  rw [diffLoop_sent_nodup _ _ _ hn]
  induction devs with
  | nil => rfl
  | cons d ds ih =>
    simp only [ids, List.map_cons, List.nodup_cons] at hn
    rw [List.flatMap_cons, ih hn.2, emitted_none false _ d rfl]
    rfl

/-- C10 (notification flood after a failed first tick). `main` sets
`isFirstRun` to false after the first call of `checkDevices` whatever its
outcome. So when the request URL parses (no tick can obtain a snapshot
otherwise) and the first tick, and every tick after it up to the first one
that obtains a snapshot, returns before the loop, the map is still empty and
`isFirstRun` is false when that snapshot arrives, and if its ids are unique
the calls of `sendNotification` of that tick, which are all the calls of the
run so far, report every device of the snapshot, in snapshot order. -/
theorem flood_after_failed_first_tick (urlParses : String → Bool) (env : Env)
    (first : Cycle) (failed : List Cycle)
    (w : Cycle) (tok : Response TokenResponse) (resp : Response DevicesResponse)
    (hparse : urlParses (apiURL env.TS_TAILNET) = true)
    (hfirst : first.aborts = true) (hfailed : ∀ f ∈ failed, f.aborts = true)
    (htok : w.token = Except.ok tok) (hdev : w.devices = Except.ok resp)
    (huniq : (ids resp.decoded.Devices).Nodup) :
    (∀ (c : Cycle) (cs : List Cycle) (g : Globals),
        (mainLoop urlParses env (c :: cs) g).1.isFirstRun = false)
      ∧ (mainLoop urlParses env (first :: failed) Globals.init).1.isFirstRun = false
      ∧ (mainLoop urlParses env (first :: failed) Globals.init).1.statusCache =
        StatusCache.empty
      ∧ (mainLoop urlParses env ((first :: failed) ++ [w]) Globals.init).3 = false
      ∧ notifications
          (checkDevices urlParses env w
            (mainLoop urlParses env (first :: failed) Globals.init).1).2 =
        resp.decoded.Devices.map (fun d => (d.Hostname, d.Connected))
      ∧ notifications
          (mainLoop urlParses env ((first :: failed) ++ [w]) Globals.init).2 =
        resp.decoded.Devices.map (fun d => (d.Hostname, d.Connected)) := by
  have hall : ∀ x ∈ first :: failed, x.aborts = true := by
    intro x hx
    rcases List.mem_cons.1 hx with rfl | hx
    · exact hfirst
    · exact hfailed x hx
  have hab := mainLoop_aborts urlParses env (first :: failed) Globals.init hparse hall
  have hfr := mainLoop_cons_isFirstRun urlParses env first failed Globals.init hparse
  have hcache : (mainLoop urlParses env (first :: failed) Globals.init).globals.statusCache =
      StatusCache.empty := hab.1
  have htick : notifications
      (checkDevices urlParses env w
        (mainLoop urlParses env (first :: failed) Globals.init).globals).actions =
        resp.decoded.Devices.map (fun d => (d.Hostname, d.Connected)) := by
    rcases w with ⟨wt, wd⟩
    simp only at htok hdev
    subst htok hdev
    simp only [checkDevices, getAccessToken, hparse, hfr, hcache, notifications_append,
      diffLoop_flood _ huniq, notifications_map_eventOf, Bool.not_true, Bool.false_eq_true,
      if_false]
    simp [notifications]
  have hone : ∀ g : Globals, mainLoop urlParses env [w] g =
      { globals := { (checkDevices urlParses env w g).globals with isFirstRun := false },
        actions := (checkDevices urlParses env w g).actions,
        panicked := false } := by
    intro g
    rw [mainLoop_cons _ _ _ _ _ hparse]
    simp [mainLoop]
  refine ⟨fun c cs g => mainLoop_cons_isFirstRun urlParses env c cs g hparse, hfr, hcache,
    ?_, htick, ?_⟩
  · rw [mainLoop_append _ _ _ _ _ hparse, hone]
  · rw [mainLoop_append _ _ _ _ _ hparse, hone]
    simp only [notifications_append, hab.2, List.nil_append]
    exact htick

/-! ## The claims at concrete inputs -/

/-- C1 at `{A: true}`: the snapshot `[{A, false}]` causes the one call for `A`
with `online = false` and leaves `{A: false}`; the snapshot `[{A, true}]`
causes no call. -/
theorem transition_detection_witness :
    (ids ([] ++ (⟨"A", "alpha", false⟩ : Device) :: [])).Nodup
      ∧ (StatusCache.empty.set "A" true) "A" = some true
      ∧ (diffLoop false (StatusCache.empty.set "A" true) [⟨"A", "alpha", false⟩]).sent =
        [Action.sendNotification "alpha" false]
      ∧ (diffLoop false (StatusCache.empty.set "A" true)
          [⟨"A", "alpha", false⟩]).statusCache "A" = some false
      ∧ (diffLoop false (StatusCache.empty.set "A" true) [⟨"A", "alpha", true⟩]).sent = [] :=
  ⟨by decide, rfl,
    (transition_detection (StatusCache.empty.set "A" true) false [] []
      ⟨"A", "alpha", false⟩ true (by decide) rfl).2.1,
    (transition_detection (StatusCache.empty.set "A" true) false [] []
      ⟨"A", "alpha", false⟩ true (by decide) rfl).2.2,
    (transition_detection (StatusCache.empty.set "A" true) false [] []
      ⟨"A", "alpha", true⟩ true (by decide) rfl).2.1⟩

/-- C2 amended at the snapshot `[{A, true}, {B, false}]`. -/
theorem first_run_suppression_witness :
    (ids [⟨"A", "alpha", true⟩, ⟨"B", "beta", false⟩]).Nodup
      ∧ (diffLoop true StatusCache.empty
          [⟨"A", "alpha", true⟩, ⟨"B", "beta", false⟩]).sent = []
      ∧ (diffLoop true StatusCache.empty
          [⟨"A", "alpha", true⟩, ⟨"B", "beta", false⟩]).statusCache "A" = some true
      ∧ (diffLoop true StatusCache.empty
          [⟨"A", "alpha", true⟩, ⟨"B", "beta", false⟩]).statusCache "B" = some false :=
  ⟨by decide,
    (first_run_suppression [⟨"A", "alpha", true⟩, ⟨"B", "beta", false⟩] (by decide)).1,
    (first_run_suppression [⟨"A", "alpha", true⟩, ⟨"B", "beta", false⟩] (by decide)).2.2
      ⟨"A", "alpha", true⟩ (by simp),
    (first_run_suppression [⟨"A", "alpha", true⟩, ⟨"B", "beta", false⟩] (by decide)).2.2
      ⟨"B", "beta", false⟩ (by simp)⟩

/-- C3 at the empty map: the snapshot `[{B, true}]` causes the one call for
`B` with `online = true`. -/
theorem new_device_after_startup_witness :
    (ids ([] ++ (⟨"B", "beta", true⟩ : Device) :: [])).Nodup
      ∧ StatusCache.empty "B" = none
      ∧ (diffLoop false StatusCache.empty [⟨"B", "beta", true⟩]).sent =
        [Action.sendNotification "beta" true]
      ∧ (diffLoop false StatusCache.empty [⟨"B", "beta", true⟩]).statusCache "B" =
        some true :=
  ⟨by decide, rfl,
    (new_device_after_startup StatusCache.empty [] [] ⟨"B", "beta", true⟩
      (by decide) rfl).2.1,
    (new_device_after_startup StatusCache.empty [] [] ⟨"B", "beta", true⟩
      (by decide) rfl).2.2⟩

/-- C4 at `{A: true}` and the snapshot `[{A, false}, {B, true}]`. -/
theorem idempotence_witness :
    (ids [⟨"A", "alpha", false⟩, ⟨"B", "beta", true⟩]).Nodup
      ∧ (diffLoop false
          (diffLoop false (StatusCache.empty.set "A" true)
            [⟨"A", "alpha", false⟩, ⟨"B", "beta", true⟩]).statusCache
          [⟨"A", "alpha", false⟩, ⟨"B", "beta", true⟩]).sent = []
      ∧ (diffLoop false
          (diffLoop false (StatusCache.empty.set "A" true)
            [⟨"A", "alpha", false⟩, ⟨"B", "beta", true⟩]).statusCache
          [⟨"A", "alpha", false⟩, ⟨"B", "beta", true⟩]).statusCache =
        (diffLoop false (StatusCache.empty.set "A" true)
          [⟨"A", "alpha", false⟩, ⟨"B", "beta", true⟩]).statusCache :=
  ⟨by decide,
    idempotence (StatusCache.empty.set "A" true) false
      [⟨"A", "alpha", false⟩, ⟨"B", "beta", true⟩] (by decide)⟩

/-- C5 at `{A: true}` and the snapshot `[{B, true}]`: `A` stays mapped to
`true`. -/
theorem stale_retention_witness :
    (StatusCache.empty.set "A" true) "A" = some true
      ∧ "A" ∉ ids [⟨"B", "beta", true⟩]
      ∧ (diffLoop false (StatusCache.empty.set "A" true)
          [⟨"B", "beta", true⟩]).statusCache "A" = some true :=
  ⟨rfl, by decide,
    (stale_retention (StatusCache.empty.set "A" true) false [⟨"B", "beta", true⟩]
      "A" true rfl (by decide)).1⟩

/-- C6 at the polls `[{A, true}, {B, false}]` and then `[{A, false}]`: `A` is
mapped to `false`, its connectivity in the second snapshot. -/
theorem tracked_state_invariant_witness :
    (∀ p ∈ [(true, [(⟨"A", "alpha", true⟩ : Device), ⟨"B", "beta", false⟩]),
        (false, [⟨"A", "alpha", false⟩])], (ids p.2).Nodup)
      ∧ trackedAfter [(true, [⟨"A", "alpha", true⟩, ⟨"B", "beta", false⟩]),
          (false, [⟨"A", "alpha", false⟩])] "A" = some false
      ∧ ∃ (earlier : List (Bool × List Device)) (p : Bool × List Device)
          (later : List (Bool × List Device)) (d : Device),
        [(true, [(⟨"A", "alpha", true⟩ : Device), ⟨"B", "beta", false⟩]),
            (false, [⟨"A", "alpha", false⟩])] = earlier ++ p :: later ∧
          d ∈ p.2 ∧ d.ID = "A" ∧ d.Connected = false ∧ ∀ q ∈ later, "A" ∉ ids q.2 :=
  ⟨by decide, rfl,
    tracked_state_invariant
      [(true, [⟨"A", "alpha", true⟩, ⟨"B", "beta", false⟩]),
        (false, [⟨"A", "alpha", false⟩])] (by decide) "A" false rfl⟩

/-- C8 amended at a token exchange that times out, and at one answered with
status 503 and a body that is not JSON. -/
theorem credential_error_aborts_witness :
    (⟨Except.error "i/o timeout", Except.ok ⟨200, ⟨[⟨"A", "alpha", true⟩]⟩, none⟩⟩ :
        Cycle).token = Except.error "i/o timeout"
      ∧ (getAccessToken "id" "secret" (Except.error "i/o timeout")).1 =
        Except.error "i/o timeout"
      ∧ (checkDevices (fun _ => true) ⟨"id", "secret", "example.com"⟩
          ⟨Except.error "i/o timeout", Except.ok ⟨200, ⟨[⟨"A", "alpha", true⟩]⟩, none⟩⟩
          ⟨StatusCache.empty, false⟩).2.any Action.isDeviceListRequest = false
      ∧ notifications (checkDevices (fun _ => true) ⟨"id", "secret", "example.com"⟩
          ⟨Except.error "i/o timeout", Except.ok ⟨200, ⟨[⟨"A", "alpha", true⟩]⟩, none⟩⟩
          ⟨StatusCache.empty, false⟩).2 = []
      ∧ (checkDevices (fun _ => true) ⟨"id", "secret", "example.com"⟩
          ⟨Except.error "i/o timeout", Except.ok ⟨200, ⟨[⟨"A", "alpha", true⟩]⟩, none⟩⟩
          ⟨StatusCache.empty, false⟩).1.statusCache = StatusCache.empty
      ∧ (getAccessToken "id" "secret"
          (Except.ok ⟨503, ⟨""⟩, some "unexpected end of JSON input"⟩)).1 =
        Except.ok ""
      ∧ Action.clientDo "GET" (apiURL "example.com") "" "" ∈
        (checkDevices (fun _ => true) ⟨"id", "secret", "example.com"⟩
          ⟨Except.ok ⟨503, ⟨""⟩, some "unexpected end of JSON input"⟩,
            Except.ok ⟨401, ⟨[]⟩, none⟩⟩
          ⟨StatusCache.empty, false⟩).2 :=
  have h1 := (credential_error_aborts (fun _ => true) ⟨"id", "secret", "example.com"⟩
    ⟨Except.error "i/o timeout", Except.ok ⟨200, ⟨[⟨"A", "alpha", true⟩]⟩, none⟩⟩
    ⟨StatusCache.empty, false⟩).1 "i/o timeout" rfl
  have h2 := (credential_error_aborts (fun _ => true) ⟨"id", "secret", "example.com"⟩
    ⟨Except.ok ⟨503, ⟨""⟩, some "unexpected end of JSON input"⟩,
      Except.ok ⟨401, ⟨[]⟩, none⟩⟩
    ⟨StatusCache.empty, false⟩).2
      ⟨503, ⟨""⟩, some "unexpected end of JSON input"⟩ rfl
  ⟨rfl, h1.1, h1.2.1, h1.2.2.1, h1.2.2.2, h2.1, h2.2.2 rfl⟩

/-- C9 amended at a device-list request that times out, and at a device list
on which `Decode` returns an error after leaving one record. -/
theorem fetch_error_keeps_state_witness :
    ((∃ e, (⟨Except.ok ⟨200, ⟨"tok"⟩, none⟩, Except.error "i/o timeout"⟩ : Cycle).devices =
          Except.error e) ∨
        (∃ resp, (⟨Except.ok ⟨200, ⟨"tok"⟩, none⟩, Except.error "i/o timeout"⟩ :
          Cycle).devices = Except.ok resp ∧ resp.decoded.Devices = []))
      ∧ notifications (checkDevices (fun _ => true) ⟨"id", "secret", "example.com"⟩
          ⟨Except.ok ⟨200, ⟨"tok"⟩, none⟩, Except.error "i/o timeout"⟩
          ⟨StatusCache.empty.set "A" true, false⟩).2 = []
      ∧ (checkDevices (fun _ => true) ⟨"id", "secret", "example.com"⟩
          ⟨Except.ok ⟨200, ⟨"tok"⟩, none⟩, Except.error "i/o timeout"⟩
          ⟨StatusCache.empty.set "A" true, false⟩).1.statusCache =
        StatusCache.empty.set "A" true
      ∧ (checkDevices (fun _ => true) ⟨"id", "secret", "example.com"⟩
          ⟨Except.ok ⟨200, ⟨"tok"⟩, none⟩,
            Except.ok ⟨500, ⟨[⟨"A", "alpha", false⟩, ⟨"B", "beta", true⟩]⟩,
              some "json: cannot unmarshal string into Go struct field"⟩⟩
          ⟨StatusCache.empty.set "A" true, false⟩).2 =
        [Action.postForm "https://api.tailscale.com/api/v2/oauth/token"
            [("client_id", "id"), ("client_secret", "secret"),
              ("grant_type", "client_credentials")],
          Action.clientDo "GET" (apiURL "example.com") "tok" "",
          Action.sendNotification "alpha" false,
          Action.sendNotification "beta" true] :=
  have h1 := (fetch_error_keeps_state (fun _ => true) ⟨"id", "secret", "example.com"⟩
    ⟨Except.ok ⟨200, ⟨"tok"⟩, none⟩, Except.error "i/o timeout"⟩
    ⟨StatusCache.empty.set "A" true, false⟩).1 (Or.inl ⟨"i/o timeout", rfl⟩)
  have h2 := (fetch_error_keeps_state (fun _ => true) ⟨"id", "secret", "example.com"⟩
    ⟨Except.ok ⟨200, ⟨"tok"⟩, none⟩,
      Except.ok ⟨500, ⟨[⟨"A", "alpha", false⟩, ⟨"B", "beta", true⟩]⟩,
        some "json: cannot unmarshal string into Go struct field"⟩⟩
    ⟨StatusCache.empty.set "A" true, false⟩).2
      ⟨200, ⟨"tok"⟩, none⟩
      ⟨500, ⟨[⟨"A", "alpha", false⟩, ⟨"B", "beta", true⟩]⟩,
        some "json: cannot unmarshal string into Go struct field"⟩ rfl rfl rfl
  ⟨Or.inl ⟨"i/o timeout", rfl⟩, h1.1, h1.2, h2.1⟩

/-- C10 at a first tick whose token exchange times out, followed by a tick
that obtains `[{A, true}, {B, false}]`: both devices are reported. -/
theorem flood_after_failed_first_tick_witness :
    (fun _ : String => true) (apiURL "example.com") = true
      ∧ (⟨Except.error "i/o timeout", Except.error "i/o timeout"⟩ : Cycle).aborts = true
      ∧ (ids [⟨"A", "alpha", true⟩, ⟨"B", "beta", false⟩]).Nodup
      ∧ notifications (mainLoop (fun _ => true) ⟨"id", "secret", "example.com"⟩
          [⟨Except.error "i/o timeout", Except.error "i/o timeout"⟩,
            ⟨Except.ok ⟨200, ⟨"tok"⟩, none⟩,
              Except.ok ⟨200, ⟨[⟨"A", "alpha", true⟩, ⟨"B", "beta", false⟩]⟩, none⟩⟩]
          Globals.init).2 = [("alpha", true), ("beta", false)] :=
  ⟨rfl, rfl, by decide,
    (flood_after_failed_first_tick (fun _ => true) ⟨"id", "secret", "example.com"⟩
      ⟨Except.error "i/o timeout", Except.error "i/o timeout"⟩ []
      ⟨Except.ok ⟨200, ⟨"tok"⟩, none⟩,
        Except.ok ⟨200, ⟨[⟨"A", "alpha", true⟩, ⟨"B", "beta", false⟩]⟩, none⟩⟩
      ⟨200, ⟨"tok"⟩, none⟩
      ⟨200, ⟨[⟨"A", "alpha", true⟩, ⟨"B", "beta", false⟩]⟩, none⟩
      rfl rfl (by simp) rfl rfl (by decide)).2.2.2.2.2⟩

end TailscaleMonitor
